import Mathlib

/-!
Verification development for the glue-qt AI bridge server
(`glue_qt_ai/server.py`): a Qt TCP server exposing a running glue
application over a newline-delimited JSON protocol.

The embedding below follows the Python source closely:

* `JVal` is the result of `json.loads` on one line of input;
* `PyVal` / `pyRepr` model the Python values living in the execution
  namespace and `repr`;
* `PyInterp` abstracts the external Python `exec`/`eval` primitives the
  server delegates to (they are part of the Python runtime, not of this
  repository); an interpreter maps a code string and a namespace to the
  produced stdout/stderr text, the resulting namespace, and either a
  value or a raised exception;
* `executeCommand` embeds `GlueBridgeServer._execute_command`;
* `onNewConnection` embeds `GlueBridgeServer._on_new_connection` together
  with `_request_approval` (the modal dialog is the external boolean
  callback `cb`);
* `stepEvent` / `runServer` embed `GlueBridgeServer._on_ready_read`
  driven by the single-threaded Qt event loop: events (fully received
  frames) are delivered one at a time, in arrival order.
-/

namespace GlueBridge

/-- A single apostrophe character, used when rendering Python messages. -/
def sq : String := String.mk [Char.ofNat 39]

/-- JSON values, as produced by `json.loads` on one decoded line. -/
inductive JVal where
  | jnull
  | jbool (b : Bool)
  | jnum (n : Int)
  | jstr (s : String)
  | jarr (xs : List JVal)
  | jobj (kvs : List (String × JVal))
  deriving Repr

/-- Python runtime values stored in the execution namespace.  Host
objects (the glue application, modules, ...) are opaque apart from their
`repr` text. -/
inductive PyVal where
  | pynone
  | pyint (n : Int)
  | pystr (s : String)
  | pyobj (r : String)
  deriving Repr, DecidableEq

/-- Python `repr`, as applied by the server to `eval` results. -/
def pyRepr : PyVal → String
  | .pynone => "None"
  | .pyint n => toString n
  | .pystr s => sq ++ s ++ sq
  | .pyobj r => r

/-- A raised Python exception, as observed by the server's handler:
`str(e)` and `traceback.format_exc()`. -/
structure PyExc where
  msg : String
  tb : String
  deriving Repr, DecidableEq

/-- Python `dict`-style lookup on a decoded JSON object. -/
def jfind (kvs : List (String × JVal)) (k : String) : Option JVal :=
  (kvs.find? (fun p => p.1 == k)).map (fun p => p.2)

/-- Python `request.get(k, dflt)` on a decoded JSON object. -/
def jget (kvs : List (String × JVal)) (k : String) (dflt : JVal) : JVal :=
  (jfind kvs k).getD dflt

/-- Does a decoded JSON object carry the given key? -/
def hasKey (v : JVal) (k : String) : Bool :=
  match v with
  | .jobj kvs => kvs.any (fun p => p.1 == k)
  | _ => false

/-- Field lookup on a response object. -/
def respField (v : JVal) (k : String) : Option JVal :=
  match v with
  | .jobj kvs => jfind kvs k
  | _ => none

/-- A process output channel: either one of the host process streams
(`sys.stdout` / `sys.stderr` as found at call entry) or a per-call
`StringIO` capture buffer, identified by the call it belongs to
(`stderrSide` distinguishes the two buffers of one call). -/
inductive Chan where
  | std (name : String)
  | capture (callId : Nat) (stderrSide : Bool)
  deriving Repr, DecidableEq

/-- The pair of current process output channels (`sys.stdout`,
`sys.stderr`). -/
structure Sys where
  stdout : Chan
  stderr : Chan
  deriving Repr, DecidableEq

/-- Effect of running `exec(code, ns)` in the Python runtime: text
written to the (redirected) stdout/stderr, the namespace after the
in-place mutation, and the exception raised, if any. -/
structure ExecEffect where
  out : String
  err : String
  ns' : List (String × PyVal)
  exc : Option PyExc
  deriving Repr, DecidableEq

/-- Effect of running `eval(code, ns)` in the Python runtime. -/
structure EvalEffect where
  out : String
  err : String
  ns' : List (String × PyVal)
  res : Except PyExc PyVal
  deriving Repr

/-- The external Python `exec`/`eval` primitives the server delegates
to.  The server's behaviour is parametric in them. -/
structure PyInterp where
  runExec : String → List (String × PyVal) → ExecEffect
  runEval : String → List (String × PyVal) → EvalEffect

/-- Python type name of a decoded JSON value (for exception text). -/
def pyTypeName : JVal → String
  | .jnull => "NoneType"
  | .jbool _ => "bool"
  | .jnum _ => "int"
  | .jstr _ => "str"
  | .jarr _ => "list"
  | .jobj _ => "dict"

/-- Rendering of `traceback.format_exc()` for an exception the server
machinery itself raises (modelled up to the exact frame text, which no
property here depends on). -/
def tbOf (msg : String) : String :=
  "Traceback (most recent call last): " ++ msg

/-- The `AttributeError` raised by `request.get(...)` when the decoded
frame is not a JSON object (Python `dict`). -/
def attrExc (v : JVal) : PyExc :=
  { msg := sq ++ pyTypeName v ++ sq ++ " object has no attribute " ++ sq ++ "get" ++ sq,
    tb := tbOf (sq ++ pyTypeName v ++ sq ++ " object has no attribute " ++ sq ++ "get" ++ sq) }

/-- The `TypeError` raised by `eval`/`exec` when `code` is not a string
(`fn` is the name of the builtin). -/
def codeTypeExc (fn : String) : PyExc :=
  { msg := fn ++ "() arg 1 must be a string, bytes or code object",
    tb := tbOf (fn ++ "() arg 1 must be a string, bytes or code object") }

/-- The failure response dict built by `_execute_command`'s handler:
`{'success': False, 'error': str(e), 'traceback': ..., 'stdout': ...,
'stderr': ...}`. -/
def failObj (exc : PyExc) (out err : String) : JVal :=
  .jobj [("success", .jbool false), ("error", .jstr exc.msg),
         ("traceback", .jstr exc.tb), ("stdout", .jstr out), ("stderr", .jstr err)]

/-- The success response dict of the `eval` branch. -/
def evalOkObj (resultRepr out err : String) : JVal :=
  .jobj [("success", .jbool true), ("result", .jstr resultRepr),
         ("stdout", .jstr out), ("stderr", .jstr err)]

/-- The success response dict of the `exec` branch (`'result': None`). -/
def execOkObj (out err : String) : JVal :=
  .jobj [("success", .jbool true), ("result", .jnull),
         ("stdout", .jstr out), ("stderr", .jstr err)]

/-- Result of one `_execute_command` call that returned normally:
the response dict, the namespace after the call, the channels in effect
while the code fragment ran (`sysDuring`), the channels after the
`finally` block (`sysAfter`), and the text accumulated in the two
per-call capture buffers. -/
structure CmdResult where
  response : JVal
  ns' : List (String × PyVal)
  sysDuring : Sys
  sysAfter : Sys
  capturedOut : String
  capturedErr : String
  deriving Repr

/-- The channels installed by the redirection
`sys.stdout = captured_out; sys.stderr = captured_err`. -/
def redirSys (callId : Nat) : Sys :=
  ⟨.capture callId false, .capture callId true⟩

/-- Embedding of `GlueBridgeServer._execute_command` (server.py lines
146-189).  `callId` identifies the per-call `StringIO` buffers.  The
`Except` error case is an exception escaping the method: the only such
path is `request.get` on a non-dict (`AttributeError` at line 148,
raised before the channels are saved and redirected, hence the escaping
state still carries `sys0` unchanged).  Every branch reached after the
redirection restores the saved channels in the `finally` block. -/
def executeCommand (interp : PyInterp) (callId : Nat) (sys0 : Sys)
    (ns : List (String × PyVal)) (request : JVal) :
    Except (PyExc × Sys) CmdResult :=
  match request with
  | .jobj kvs =>
    let cmdType := jget kvs "type" (.jstr "exec")
    let code := jget kvs "code" (.jstr "")
    let restored : Sys := ⟨sys0.stdout, sys0.stderr⟩
    match cmdType with
    | .jstr "eval" =>
      match code with
      | .jstr c =>
        let eff := interp.runEval c ns
        match eff.res with
        | .ok v =>
          .ok { response := evalOkObj (pyRepr v) eff.out eff.err,
                ns' := eff.ns', sysDuring := redirSys callId, sysAfter := restored,
                capturedOut := eff.out, capturedErr := eff.err }
        | .error exc =>
          .ok { response := failObj exc eff.out eff.err,
                ns' := eff.ns', sysDuring := redirSys callId, sysAfter := restored,
                capturedOut := eff.out, capturedErr := eff.err }
      | _ =>
        .ok { response := failObj (codeTypeExc "eval") "" "",
              ns' := ns, sysDuring := redirSys callId, sysAfter := restored,
              capturedOut := "", capturedErr := "" }
    | _ =>
      match code with
      | .jstr c =>
        let eff := interp.runExec c ns
        match eff.exc with
        | none =>
          .ok { response := execOkObj eff.out eff.err,
                ns' := eff.ns', sysDuring := redirSys callId, sysAfter := restored,
                capturedOut := eff.out, capturedErr := eff.err }
        | some exc =>
          .ok { response := failObj exc eff.out eff.err,
                ns' := eff.ns', sysDuring := redirSys callId, sysAfter := restored,
                capturedOut := eff.out, capturedErr := eff.err }
      | _ =>
        .ok { response := failObj (codeTypeExc "exec") "" "",
              ns' := ns, sysDuring := redirSys callId, sysAfter := restored,
              capturedOut := "", capturedErr := "" }
  | other => .error (attrExc other, sys0)

/-! ## Connection approval (`_on_new_connection` / `_request_approval`) -/

/-- One line received on a connection, as the server sees it after
`readLine().data().decode('utf-8').strip()` and `json.loads`:
blank after stripping, rejected by `json.loads`
(`json.JSONDecodeError` with message `m`), or decoded to a JSON value. -/
inductive Line where
  | empty
  | badJson (m : String)
  | parsed (v : JVal)

/-- A connection as accepted by `nextPendingConnection()`: its peer
identity and the client data already received and buffered on the
socket but not yet read by the server. -/
structure IncomingConn where
  peerAddress : String
  peerPort : Nat
  buffered : List Line

/-- Outcome of one `_on_new_connection` invocation: the connections
moved to `approved_connections`, the response frames written (peer,
frame) in order, the peers whose sockets were closed, and the peers for
which `_request_approval` ran (i.e. the modal `QMessageBox` was
executed). -/
structure AcceptOut where
  approved : List IncomingConn
  written : List ((String × Nat) × JVal)
  closed : List (String × Nat)
  dialogShown : List ((String × Nat))

/-- Embedding of `GlueBridgeServer._request_approval` (server.py lines
105-123): extract the peer identity and run the modal dialog, which is
the external boolean callback `cb`. -/
def requestApproval (cb : String → Nat → Bool) (c : IncomingConn) : Bool :=
  cb c.peerAddress c.peerPort

/-- The approval confirmation dict written on approval (line 94):
`{'success': True, 'message': 'Connection approved'}`. -/
def approvalObj : JVal :=
  .jobj [("success", .jbool true), ("message", .jstr "Connection approved")]

/-- The rejection dict written on rejection (line 100):
`{'success': False, 'error': 'Connection rejected by user'}`. -/
def rejectionObj : JVal :=
  .jobj [("success", .jbool false), ("error", .jstr "Connection rejected by user")]

/-- Embedding of `GlueBridgeServer._on_new_connection` (server.py lines
77-103).  For each pending connection the dialog runs first; nothing is
ever read from the connection's buffered data (the `readyRead` handler
is only connected after approval), so `buffered` is carried through
untouched. -/
def onNewConnection (cb : String → Nat → Bool) : List IncomingConn → AcceptOut
  | [] => ⟨[], [], [], []⟩
  | c :: rest =>
    let approvedQ := requestApproval cb c
    let tail := onNewConnection cb rest
    if approvedQ then
      { approved := c :: tail.approved,
        written := ((c.peerAddress, c.peerPort), approvalObj) :: tail.written,
        closed := tail.closed,
        dialogShown := (c.peerAddress, c.peerPort) :: tail.dialogShown }
    else
      { approved := tail.approved,
        written := ((c.peerAddress, c.peerPort), rejectionObj) :: tail.written,
        closed := (c.peerAddress, c.peerPort) :: tail.closed,
        dialogShown := (c.peerAddress, c.peerPort) :: tail.dialogShown }

/-! ## The command loop (`_on_ready_read`) under the Qt event loop -/

/-- Server-side mutable state relevant to command processing: the shared
execution namespace (`self.namespace`), the process output channels, the
list of approved connection ids, and a counter identifying the next
per-call capture buffers. -/
structure ServerState where
  ns : List (String × PyVal)
  sys : Sys
  approved : List Nat
  nextCall : Nat

/-- An event delivered by the single-threaded Qt event loop: one fully
received frame (line) on an approved connection.  The list order of the
events fed to `runServer` is the order in which the frames were fully
received. -/
inductive Event where
  | frame (conn : Nat) (line : Line)

/-- Execution-trace events: `_execute_command` entered / returned, with
the call's buffer id and the connection it serves. -/
inductive TraceEv where
  | enterExec (callId : Nat) (conn : Nat)
  | leaveExec (callId : Nat) (conn : Nat)

/-- Bookkeeping record of one completed `_execute_command` call: the
text its own capture buffers held at response time and the response
built from them. -/
structure CallRecord where
  callId : Nat
  conn : Nat
  out : String
  err : String
  response : JVal

/-- Observable outcome of a server run: final state, response frames
written (conn, frame) in order, completed-call records, the execution
trace, and exceptions that escaped the `_on_ready_read` handler. -/
structure RunOut where
  st : ServerState
  sent : List (Nat × JVal)
  calls : List CallRecord
  trace : List TraceEv
  escaped : List (Nat × PyExc)

/-- Embedding of the body of `GlueBridgeServer._on_ready_read`
(server.py lines 130-144) for one received line: blank lines are
skipped; a line `json.loads` rejects yields the
`{'error': 'Invalid JSON: ...', 'success': False}` response; a decoded
line is passed to `_execute_command` and the response written back.  An
exception raised by `_execute_command` other than `json.JSONDecodeError`
(the only kind caught) escapes the handler: no response is written. -/
def stepEvent (interp : PyInterp) (st : ServerState) : Event → RunOut
  | .frame conn line =>
    match line with
    | .empty => ⟨st, [], [], [], []⟩
    | .badJson m =>
      ⟨st, [(conn, .jobj [("error", .jstr ("Invalid JSON: " ++ m)), ("success", .jbool false)])],
       [], [], []⟩
    | .parsed v =>
      match executeCommand interp st.nextCall st.sys st.ns v with
      | .ok r =>
        ⟨{ st with ns := r.ns', sys := r.sysAfter, nextCall := st.nextCall + 1 },
         [(conn, r.response)],
         [⟨st.nextCall, conn, r.capturedOut, r.capturedErr, r.response⟩],
         [.enterExec st.nextCall conn, .leaveExec st.nextCall conn],
         []⟩
      | .error (exc, sys') =>
        ⟨{ st with sys := sys', nextCall := st.nextCall + 1 },
         [], [],
         [.enterExec st.nextCall conn, .leaveExec st.nextCall conn],
         [(conn, exc)]⟩

/-- The single-threaded Qt event loop: deliver the received frames one
at a time, in arrival order, threading the server state. -/
def runServer (interp : PyInterp) (st : ServerState) : List Event → RunOut
  | [] => ⟨st, [], [], [], []⟩
  | e :: rest =>
    let s := stepEvent interp st e
    let r := runServer interp s.st rest
    ⟨r.st, s.sent ++ r.sent, s.calls ++ r.calls, s.trace ++ r.trace, s.escaped ++ r.escaped⟩

/-! ## Auxiliary definitions used to state the properties -/

/-- Namespace lookup (Python `ns[k]` / name resolution). -/
def nsGet (ns : List (String × PyVal)) (k : String) : Option PyVal :=
  (ns.find? (fun p => p.1 == k)).map (fun p => p.2)

/-- Namespace update (Python assignment `k = v` mutating the dict). -/
def nsSet (ns : List (String × PyVal)) (k : String) (v : PyVal) :
    List (String × PyVal) :=
  match ns with
  | [] => [(k, v)]
  | (k', v') :: rest => if k' == k then (k, v) :: rest else (k', v') :: nsSet rest k v

/-- The namespace seeded in `GlueBridgeServer.__init__` (server.py lines
36-44) from the host application; the subsequent `exec` of the import
block (lines 47-52) adds further opaque module/class bindings, here
represented the same way. -/
def seedNamespace (appV dcV sessV hubV : PyVal) : List (String × PyVal) :=
  [("app", appV), ("application", appV), ("dc", dcV), ("data_collection", dcV),
   ("session", sessV), ("hub", hubV)]

/-- Number of `_execute_command` calls in flight never exceeds one:
check a trace starting from `k` open calls, failing if an `enterExec`
would make the count exceed 1. -/
def inFlightLe1 : Nat → List TraceEv → Bool
  | _, [] => true
  | k, .enterExec _ _ :: r => decide (k + 1 ≤ 1) && inFlightLe1 (k + 1) r
  | k, .leaveExec _ _ :: r => inFlightLe1 (k - 1) r

/-- The connections served by the executions of a trace, in execution
order. -/
def enterConns : List TraceEv → List Nat
  | [] => []
  | .enterExec _ c :: r => c :: enterConns r
  | .leaveExec _ _ :: r => enterConns r

/-- The call ids of the executions of a trace, in execution order. -/
def enterIds : List TraceEv → List Nat
  | [] => []
  | .enterExec i _ :: r => i :: enterIds r
  | .leaveExec _ _ :: r => enterIds r

/-- The list `[n, n+1, ..., n+k-1]`. -/
def idsFrom (n : Nat) : Nat → List Nat
  | 0 => []
  | k + 1 => n :: idsFrom (n + 1) k

/-- The connection of an event that reaches `_execute_command` (a frame
`json.loads` decoded). -/
def parsedConn : Event → Option Nat
  | .frame c (.parsed _) => some c
  | .frame _ _ => none

/-- Each completed call's response carries exactly the text of that
call's own capture buffers as its `stdout`/`stderr` fields. -/
def ownCapture (l : List CallRecord) : Bool :=
  l.all fun r =>
    (match respField r.response "stdout" with
     | some (.jstr s) => s == r.out
     | _ => false) &&
    (match respField r.response "stderr" with
     | some (.jstr s) => s == r.err
     | _ => false)

/-- The response-shape invariant of `CommandResponse`: a `success` field
holding a boolean; if `True`, a `result` field (string or `None`) plus
`stdout` and `stderr` and no `error`/`traceback` fields; if `False`,
`error` and `traceback` plus `stdout` and `stderr` and no `result`
field. -/
def cmdResponseInvariant (v : JVal) : Bool :=
  match v with
  | .jobj kvs =>
    match jfind kvs "success" with
    | some (.jbool true) =>
      (match jfind kvs "result" with
       | some (.jstr _) => true
       | some .jnull => true
       | _ => false) &&
      hasKey v "stdout" && hasKey v "stderr" &&
      !hasKey v "error" && !hasKey v "traceback"
    | some (.jbool false) =>
      hasKey v "error" && hasKey v "traceback" &&
      hasKey v "stdout" && hasKey v "stderr" && !hasKey v "result"
    | _ => false
  | _ => false

/-- The response of a normally returning `_execute_command` call
(`.jnull` on the escaping path, which produces no response). -/
def responseOf : Except (PyExc × Sys) CmdResult → JVal
  | .ok r => r.response
  | .error _ => .jnull

/-- The process output channels after a `_execute_command` call, whether
it returned (via its `finally` block) or raised. -/
def sysAfterOf : Except (PyExc × Sys) CmdResult → Sys
  | .ok r => r.sysAfter
  | .error (_, s) => s

/-- The process output channels in effect while the code fragment of a
normally returning call ran. -/
def sysDuringOf : Except (PyExc × Sys) CmdResult → Option Sys
  | .ok r => some r.sysDuring
  | .error _ => none

/-- Did the call return normally (no exception escaped)? -/
def returnedOk : Except (PyExc × Sys) CmdResult → Bool
  | .ok _ => true
  | .error _ => false

/-- The client's initial authentication frame
`{"type": "auth", "token": null}` (sent by `BridgeConnection.connect`
in client.py). -/
def authMsg : JVal := .jobj [("type", .jstr "auth"), ("token", .jnull)]

/-- The frame `{"type": "exec", "code": "x = 5"}`. -/
def execX5Msg : JVal := .jobj [("type", .jstr "exec"), ("code", .jstr "x = 5")]

/-- The frame `{"type": "eval", "code": "x"}`. -/
def evalXMsg : JVal := .jobj [("type", .jstr "eval"), ("code", .jstr "x")]

/-- A small concrete interpreter instance standing in for the Python
runtime in closed evaluations: it understands the assignment `x = 5`,
the expression `x`, the empty statement list, and the expression `1/0`
(which raises `ZeroDivisionError`). -/
def toyInterp : PyInterp where
  runExec c ns :=
    if c = "x = 5" then ⟨"", "", nsSet ns "x" (.pyint 5), none⟩
    else if c = "" then ⟨"", "", ns, none⟩
    else ⟨"", "", ns, some ⟨"toy: unknown statement", tbOf "toy: unknown statement"⟩⟩
  runEval c ns :=
    if c = "x" then
      match nsGet ns "x" with
      | some v => ⟨"", "", ns, .ok v⟩
      | none => ⟨"", "", ns, .error ⟨"name " ++ sq ++ "x" ++ sq ++ " is not defined",
                                     tbOf "NameError"⟩⟩
    else if c = "1/0" then
      ⟨"", "", ns, .error ⟨"division by zero", tbOf "ZeroDivisionError: division by zero"⟩⟩
    else ⟨"", "", ns, .error ⟨"toy: unknown expression", tbOf "toy: unknown expression"⟩⟩

/-- A concrete initial server state for closed evaluations. -/
def st0 : ServerState :=
  { ns := seedNamespace (.pyobj "<GlueApplication>") (.pyobj "<DataCollection>")
      (.pyobj "<Session>") (.pyobj "<Hub>"),
    sys := ⟨.std "stdout", .std "stderr"⟩,
    approved := [0, 1],
    nextCall := 0 }

/-! ## Claims about connection approval -/

/-- C1.  The claim says a connection whose first message presents the
current session token is approved without invoking the approval
callback.  The code has no session-token state at all: for every new
connection, `_on_new_connection` runs `_request_approval` (the dialog)
unconditionally — here shown even for a connection whose buffered first
frame is an auth message presenting an arbitrary token `t`. -/
theorem approval_dialog_shown_despite_token (cb : String → Nat → Bool) (t : String) :
    (onNewConnection cb
      [⟨"127.0.0.1", 54321,
        [.parsed (.jobj [("type", .jstr "auth"), ("token", .jstr t)])]⟩]).dialogShown =
      [("127.0.0.1", 54321)] := by
  cases h : cb "127.0.0.1" 54321 <;>
    simp [onNewConnection, requestApproval, h]

/-- C2.  The claim says the approval response carries a session token.
The approval response the code writes is exactly
`{'success': True, 'message': 'Connection approved'}`: it has no
`token` field, and the server holds no token to put there. -/
theorem approval_response_has_no_token :
    (onNewConnection (fun _ _ => true) [⟨"127.0.0.1", 54321, []⟩]).written =
      [(("127.0.0.1", 54321), approvalObj)] ∧
    hasKey approvalObj "token" = false ∧
    hasKey approvalObj "success" = true := by
  exact ⟨rfl, rfl, rfl⟩

/-- C3.  The claim says the approval decision is made only after the
connection's first message has been received and parsed as an auth
request.  In the code the decision is taken at accept time, before any
read: the outcome of `_on_new_connection` (dialog invocations, frames
written, sockets closed) is identical whatever data — if any — the
client has already sent, and the dialog runs exactly once for the
connection. -/
theorem approval_decided_before_first_message (cb : String → Nat → Bool)
    (addr : String) (port : Nat) (b₁ b₂ : List Line) :
    (onNewConnection cb [⟨addr, port, b₁⟩]).dialogShown = [(addr, port)] ∧
    (onNewConnection cb [⟨addr, port, b₁⟩]).dialogShown =
      (onNewConnection cb [⟨addr, port, b₂⟩]).dialogShown ∧
    (onNewConnection cb [⟨addr, port, b₁⟩]).written =
      (onNewConnection cb [⟨addr, port, b₂⟩]).written ∧
    (onNewConnection cb [⟨addr, port, b₁⟩]).closed =
      (onNewConnection cb [⟨addr, port, b₂⟩]).closed := by
  cases h : cb addr port <;>
    simp [onNewConnection, requestApproval, h]

/-- C6.  The claim says every error arising from a received frame is
converted into a failure response without escaping the per-frame
handler.  A frame that is valid JSON but not an object — here the line
`[1]` — defeats this: `json.loads` succeeds, so the
`json.JSONDecodeError` handler does not apply, and `request.get`
raises `AttributeError`, which escapes `_on_ready_read`; no response is
written. -/
theorem nonobject_frame_error_escapes_handler :
    (stepEvent toyInterp st0 (.frame 0 (.parsed (.jarr [.jnum 1])))).escaped =
      [(0, attrExc (.jarr [.jnum 1]))] ∧
    (stepEvent toyInterp st0 (.frame 0 (.parsed (.jarr [.jnum 1])))).sent = [] ∧
    returnedOk (executeCommand toyInterp 0 st0.sys st0.ns (.jarr [.jnum 1])) = false := by
  exact ⟨rfl, rfl, rfl⟩

/-! ## Claims about the executor -/

/-- C8.  Every `_execute_command` call leaves the process output
channels as it found them — on the success path, on the caught-failure
path, and on the escaping path alike (`finally` at lines 187-189; the
escaping `AttributeError` is raised before the redirection) — and while
the client's code fragment runs the channels are the per-call capture
buffers. -/
theorem scoped_output_redirection (interp : PyInterp) (callId : Nat) (sys0 : Sys)
    (ns : List (String × PyVal)) :
    (∀ request : JVal, sysAfterOf (executeCommand interp callId sys0 ns request) = sys0) ∧
    (∀ kvs : List (String × JVal),
      sysDuringOf (executeCommand interp callId sys0 ns (.jobj kvs)) =
        some (redirSys callId)) := by
  constructor
  · intro request
    cases request <;> simp only [executeCommand]
    case jobj kvs =>
      split
      · split
        · split <;> rfl
        · rfl
      · split
        · split <;> rfl
        · rfl
    all_goals rfl
  · intro kvs
    simp only [executeCommand]
    split
    · split
      · split <;> rfl
      · rfl
    · split
      · split <;> rfl
      · rfl

/-- C9.  Every response `_execute_command` builds satisfies the
`CommandResponse` shape invariant: a boolean `success`; when `True`, a
string-or-null `result` plus `stdout` and `stderr`, with no
`error`/`traceback`; when `False`, `error` and `traceback` plus
`stdout` and `stderr`, with no `result`. -/
theorem command_response_invariant (interp : PyInterp) (callId : Nat) (sys0 : Sys)
    (ns : List (String × PyVal)) (kvs : List (String × JVal)) :
    cmdResponseInvariant (responseOf (executeCommand interp callId sys0 ns (.jobj kvs))) =
      true := by
  simp only [executeCommand]
  split
  · split
    · split <;> rfl
    · rfl
  · split
    · split <;> rfl
    · rfl

/-- C5.  `_execute_command` never lets an execution failure propagate:
for every JSON-object request it returns normally; when the client code
raises — in Eval mode or in Exec mode — the response is the failure
`CommandResponse` carrying the failure's message (`str(e)`), the full
traceback, and the stdout/stderr captured before the failure; and
handling such a frame leaves the approved-connection set untouched and
lets no exception escape, so the connection remains usable. -/
theorem execution_failure_contained (interp : PyInterp) (callId : Nat) (sys0 : Sys)
    (ns : List (String × PyVal)) (kvs : List (String × JVal)) (c s : String) (exc : PyExc) :
    returnedOk (executeCommand interp callId sys0 ns (.jobj kvs)) = true ∧
    (jget kvs "type" (.jstr "exec") = .jstr "eval" →
     jget kvs "code" (.jstr "") = .jstr c →
     (interp.runEval c ns).res = .error exc →
     responseOf (executeCommand interp callId sys0 ns (.jobj kvs)) =
       failObj exc (interp.runEval c ns).out (interp.runEval c ns).err) ∧
    (jget kvs "type" (.jstr "exec") = .jstr s → s ≠ "eval" →
     jget kvs "code" (.jstr "") = .jstr c →
     (interp.runExec c ns).exc = some exc →
     responseOf (executeCommand interp callId sys0 ns (.jobj kvs)) =
       failObj exc (interp.runExec c ns).out (interp.runExec c ns).err) ∧
    (∀ (st : ServerState) (conn : Nat),
      (stepEvent interp st (.frame conn (.parsed (.jobj kvs)))).st.approved = st.approved ∧
      (stepEvent interp st (.frame conn (.parsed (.jobj kvs)))).escaped = []) := by
  have hok : returnedOk (executeCommand interp callId sys0 ns (.jobj kvs)) = true := by
    simp only [executeCommand]
    split
    · split
      · split <;> rfl
      · rfl
    · split
      · split <;> rfl
      · rfl
  refine ⟨hok, ?_, ?_, ?_⟩
  · intro h1 h2 h3
    simp only [executeCommand]
    rw [h1, h2]
    simp only [h3, responseOf]
  · intro h1 hs h2 h3
    simp only [executeCommand]
    rw [h1, h2]
    split
    · next heq => exact absurd heq (by intro h; exact hs (JVal.jstr.inj h))
    · rw [h2] at *
      simp only [h3, responseOf]
  · intro st conn
    cases hE : executeCommand interp st.nextCall st.sys st.ns (.jobj kvs) with
    | ok r => simp [stepEvent, hE]
    | error e =>
      have : returnedOk (executeCommand interp st.nextCall st.sys st.ns (.jobj kvs)) = true := by
        simp only [executeCommand]
        split
        · split
          · split <;> rfl
          · rfl
        · split
          · split <;> rfl
          · rfl
      rw [hE] at this
      exact absurd this (by simp [returnedOk])

/-- Witness for C5: evaluating `1/0` under the concrete interpreter
yields the structured `ZeroDivisionError` failure response, with no
exception escaping. -/
theorem execution_failure_contained_wit :
    returnedOk (executeCommand toyInterp 0 ⟨.std "stdout", .std "stderr"⟩ []
      (.jobj [("type", .jstr "eval"), ("code", .jstr "1/0")])) = true ∧
    responseOf (executeCommand toyInterp 0 ⟨.std "stdout", .std "stderr"⟩ []
      (.jobj [("type", .jstr "eval"), ("code", .jstr "1/0")])) =
      failObj ⟨"division by zero", tbOf "ZeroDivisionError: division by zero"⟩ "" "" := by
  have h := execution_failure_contained toyInterp 0 ⟨.std "stdout", .std "stderr"⟩ []
    [("type", .jstr "eval"), ("code", .jstr "1/0")] "1/0" "eval"
    ⟨"division by zero", tbOf "ZeroDivisionError: division by zero"⟩
  exact ⟨h.1, h.2.1 rfl rfl rfl⟩

/-- C10.  `_execute_command` treats a missing `type` field — and any
`type` value other than `"eval"`, including `"auth"` — as Exec, and a
missing `code` field as the empty string, so such a request yields a
success response.  In particular the client's initial auth frame, read
after approval by `_on_ready_read`, is executed as an (empty) command
and answered with an extra success response frame. -/
theorem nonEval_type_treated_as_exec (interp : PyInterp) (callId : Nat) (sys0 : Sys)
    (ns : List (String × PyVal)) (kvs : List (String × JVal)) (s : String)
    (st : ServerState) (conn : Nat) :
    (jget kvs "type" (.jstr "exec") = .jstr s → s ≠ "eval" →
     jfind kvs "code" = none →
     (interp.runExec "" ns).exc = none →
     responseOf (executeCommand interp callId sys0 ns (.jobj kvs)) =
       execOkObj (interp.runExec "" ns).out (interp.runExec "" ns).err) ∧
    ((interp.runExec "" st.ns).exc = none →
     (stepEvent interp st (.frame conn (.parsed authMsg))).sent =
       [(conn, execOkObj (interp.runExec "" st.ns).out (interp.runExec "" st.ns).err)]) := by
  constructor
  · intro h1 hs h2 h3
    have hcode : jget kvs "code" (.jstr "") = .jstr "" := by
      simp [jget, h2]
    simp only [executeCommand]
    rw [h1, hcode]
    split
    · next heq => exact absurd heq (by intro h; exact hs (JVal.jstr.inj h))
    · simp only [h3, responseOf]
  · intro h3
    have hred :
        executeCommand interp st.nextCall st.sys st.ns authMsg =
          (match (interp.runExec "" st.ns).exc with
           | none =>
             .ok { response := execOkObj (interp.runExec "" st.ns).out
                     (interp.runExec "" st.ns).err,
                   ns' := (interp.runExec "" st.ns).ns',
                   sysDuring := redirSys st.nextCall,
                   sysAfter := ⟨st.sys.stdout, st.sys.stderr⟩,
                   capturedOut := (interp.runExec "" st.ns).out,
                   capturedErr := (interp.runExec "" st.ns).err }
           | some exc =>
             .ok { response := failObj exc (interp.runExec "" st.ns).out
                     (interp.runExec "" st.ns).err,
                   ns' := (interp.runExec "" st.ns).ns',
                   sysDuring := redirSys st.nextCall,
                   sysAfter := ⟨st.sys.stdout, st.sys.stderr⟩,
                   capturedOut := (interp.runExec "" st.ns).out,
                   capturedErr := (interp.runExec "" st.ns).err }) := rfl
    have hresp :
        executeCommand interp st.nextCall st.sys st.ns authMsg =
          .ok { response := execOkObj (interp.runExec "" st.ns).out (interp.runExec "" st.ns).err,
                ns' := (interp.runExec "" st.ns).ns',
                sysDuring := redirSys st.nextCall,
                sysAfter := ⟨st.sys.stdout, st.sys.stderr⟩,
                capturedOut := (interp.runExec "" st.ns).out,
                capturedErr := (interp.runExec "" st.ns).err } := by
      rw [hred, h3]
    simp only [stepEvent]
    rw [hresp]

/-- Witness for C10: under the concrete interpreter, the auth frame
`{"type": "auth", "token": null}` is answered with a success response
both at the executor and at the frame-handler level. -/
theorem nonEval_type_treated_as_exec_wit :
    responseOf (executeCommand toyInterp 0 ⟨.std "stdout", .std "stderr"⟩ []
      (.jobj [("type", .jstr "auth"), ("token", .jnull)])) = execOkObj "" "" ∧
    (stepEvent toyInterp st0 (.frame 0 (.parsed authMsg))).sent = [(0, execOkObj "" "")] := by
  have h := nonEval_type_treated_as_exec toyInterp 0 ⟨.std "stdout", .std "stderr"⟩ []
    [("type", .jstr "auth"), ("token", .jnull)] "auth" st0 0
  exact ⟨h.1 rfl (by decide) rfl rfl, h.2 rfl⟩

/-- C7.  The execution namespace is one shared mutable mapping: an Exec
request binding `x = 5` on one connection mutates the server-wide
namespace, and a later Eval of `x` on any connection — here a different
one — is answered with `success` and result `"5"`. -/
theorem shared_namespace_across_connections (interp : PyInterp) (st : ServerState)
    (c₁ c₂ : Nat)
    (hexec : interp.runExec "x = 5" st.ns = ⟨"", "", nsSet st.ns "x" (.pyint 5), none⟩)
    (heval : interp.runEval "x" (nsSet st.ns "x" (.pyint 5)) =
      ⟨"", "", nsSet st.ns "x" (.pyint 5), .ok (.pyint 5)⟩) :
    (runServer interp st
      [.frame c₁ (.parsed execX5Msg), .frame c₂ (.parsed evalXMsg)]).sent =
      [(c₁, execOkObj "" ""), (c₂, evalOkObj "5" "" "")] ∧
    (runServer interp st
      [.frame c₁ (.parsed execX5Msg), .frame c₂ (.parsed evalXMsg)]).st.ns =
      nsSet st.ns "x" (.pyint 5) := by
  have hred1 :
      executeCommand interp st.nextCall st.sys st.ns execX5Msg =
        (match (interp.runExec "x = 5" st.ns).exc with
         | none =>
           .ok { response := execOkObj (interp.runExec "x = 5" st.ns).out
                   (interp.runExec "x = 5" st.ns).err,
                 ns' := (interp.runExec "x = 5" st.ns).ns',
                 sysDuring := redirSys st.nextCall,
                 sysAfter := ⟨st.sys.stdout, st.sys.stderr⟩,
                 capturedOut := (interp.runExec "x = 5" st.ns).out,
                 capturedErr := (interp.runExec "x = 5" st.ns).err }
         | some exc =>
           .ok { response := failObj exc (interp.runExec "x = 5" st.ns).out
                   (interp.runExec "x = 5" st.ns).err,
                 ns' := (interp.runExec "x = 5" st.ns).ns',
                 sysDuring := redirSys st.nextCall,
                 sysAfter := ⟨st.sys.stdout, st.sys.stderr⟩,
                 capturedOut := (interp.runExec "x = 5" st.ns).out,
                 capturedErr := (interp.runExec "x = 5" st.ns).err }) := rfl
  have h1 :
      executeCommand interp st.nextCall st.sys st.ns execX5Msg =
        .ok { response := execOkObj "" "",
              ns' := nsSet st.ns "x" (.pyint 5),
              sysDuring := redirSys st.nextCall,
              sysAfter := ⟨st.sys.stdout, st.sys.stderr⟩,
              capturedOut := "", capturedErr := "" } := by
    rw [hred1, hexec]
  have h2 :
      executeCommand interp (st.nextCall + 1) ⟨st.sys.stdout, st.sys.stderr⟩
          (nsSet st.ns "x" (.pyint 5)) evalXMsg =
        .ok { response := evalOkObj "5" "" "",
              ns' := nsSet st.ns "x" (.pyint 5),
              sysDuring := redirSys (st.nextCall + 1),
              sysAfter := ⟨st.sys.stdout, st.sys.stderr⟩,
              capturedOut := "", capturedErr := "" } := by
    have hred2 :
        executeCommand interp (st.nextCall + 1) ⟨st.sys.stdout, st.sys.stderr⟩
            (nsSet st.ns "x" (.pyint 5)) evalXMsg =
          (match (interp.runEval "x" (nsSet st.ns "x" (.pyint 5))).res with
           | .ok v =>
             .ok { response := evalOkObj (pyRepr v)
                     (interp.runEval "x" (nsSet st.ns "x" (.pyint 5))).out
                     (interp.runEval "x" (nsSet st.ns "x" (.pyint 5))).err,
                   ns' := (interp.runEval "x" (nsSet st.ns "x" (.pyint 5))).ns',
                   sysDuring := redirSys (st.nextCall + 1),
                   sysAfter := ⟨st.sys.stdout, st.sys.stderr⟩,
                   capturedOut := (interp.runEval "x" (nsSet st.ns "x" (.pyint 5))).out,
                   capturedErr := (interp.runEval "x" (nsSet st.ns "x" (.pyint 5))).err }
           | .error exc =>
             .ok { response := failObj exc
                     (interp.runEval "x" (nsSet st.ns "x" (.pyint 5))).out
                     (interp.runEval "x" (nsSet st.ns "x" (.pyint 5))).err,
                   ns' := (interp.runEval "x" (nsSet st.ns "x" (.pyint 5))).ns',
                   sysDuring := redirSys (st.nextCall + 1),
                   sysAfter := ⟨st.sys.stdout, st.sys.stderr⟩,
                   capturedOut := (interp.runEval "x" (nsSet st.ns "x" (.pyint 5))).out,
                   capturedErr := (interp.runEval "x" (nsSet st.ns "x" (.pyint 5))).err }) := rfl
    rw [hred2, heval]
    rfl
  constructor
  · simp only [runServer, stepEvent]
    rw [h1]
    simp only []
    rw [h2]
    rfl
  · simp only [runServer, stepEvent]
    rw [h1]
    simp only []
    rw [h2]

/-- Witness for C7: the concrete interpreter run on the two frames from
connections 0 and 1 of the concrete initial state. -/
theorem shared_namespace_across_connections_wit :
    (runServer toyInterp st0
      [.frame 0 (.parsed execX5Msg), .frame 1 (.parsed evalXMsg)]).sent =
      [(0, execOkObj "" ""), (1, evalOkObj "5" "" "")] := by
  exact (shared_namespace_across_connections toyInterp st0 0 1 rfl rfl).1

/-- A completed `_execute_command` call reports exactly its own capture
buffers in the response's `stdout`/`stderr` fields. -/
theorem executeCommand_reports_own_buffers (interp : PyInterp) (callId : Nat)
    (sys0 : Sys) (ns : List (String × PyVal)) (v : JVal) (r : CmdResult)
    (h : executeCommand interp callId sys0 ns v = .ok r) :
    respField r.response "stdout" = some (.jstr r.capturedOut) ∧
    respField r.response "stderr" = some (.jstr r.capturedErr) := by
  cases v with
  | jobj kvs =>
    simp only [executeCommand] at h
    split at h
    · split at h
      · split at h <;> (cases Except.ok.inj h; exact ⟨rfl, rfl⟩)
      · cases Except.ok.inj h; exact ⟨rfl, rfl⟩
    · split at h
      · split at h <;> (cases Except.ok.inj h; exact ⟨rfl, rfl⟩)
      · cases Except.ok.inj h; exact ⟨rfl, rfl⟩
  | jnull => simp only [executeCommand] at h; exact Except.noConfusion h
  | jbool b => simp only [executeCommand] at h; exact Except.noConfusion h
  | jnum n => simp only [executeCommand] at h; exact Except.noConfusion h
  | jstr s => simp only [executeCommand] at h; exact Except.noConfusion h
  | jarr xs => simp only [executeCommand] at h; exact Except.noConfusion h

/-- Trace structure of a server run: executions never overlap, run in
frame-arrival order, and use consecutive fresh buffer ids. -/
theorem runServer_trace_props (interp : PyInterp) : ∀ (evs : List Event) (st : ServerState),
    inFlightLe1 0 (runServer interp st evs).trace = true ∧
    enterConns (runServer interp st evs).trace = evs.filterMap parsedConn ∧
    enterIds (runServer interp st evs).trace =
      idsFrom st.nextCall (evs.filterMap parsedConn).length := by
  intro evs
  induction evs with
  | nil => intro st; exact ⟨rfl, rfl, rfl⟩
  | cons e rest ih =>
    intro st
    cases e with
    | frame c l =>
      cases l with
      | empty =>
        have h := ih st
        simp [runServer, stepEvent, parsedConn, h.1, h.2.1, h.2.2]
      | badJson m =>
        have h := ih st
        simp [runServer, stepEvent, parsedConn, h.1, h.2.1, h.2.2]
      | parsed v =>
        cases hE : executeCommand interp st.nextCall st.sys st.ns v with
        | ok r =>
          have h := ih { st with ns := r.ns', sys := r.sysAfter, nextCall := st.nextCall + 1 }
          simp [runServer, stepEvent, hE, parsedConn, inFlightLe1, enterConns, enterIds,
            idsFrom, h.1, h.2.1, h.2.2]
        | error pr =>
          obtain ⟨exc, sys'⟩ := pr
          have h := ih { st with sys := sys', nextCall := st.nextCall + 1 }
          simp [runServer, stepEvent, hE, parsedConn, inFlightLe1, enterConns, enterIds,
            idsFrom, h.1, h.2.1, h.2.2]

/-- Every call record of a server run reports its own captured output. -/
theorem runServer_own_capture (interp : PyInterp) : ∀ (evs : List Event) (st : ServerState),
    ownCapture (runServer interp st evs).calls = true := by
  intro evs
  induction evs with
  | nil => intro st; rfl
  | cons e rest ih =>
    intro st
    cases e with
    | frame c l =>
      cases l with
      | empty => simpa [runServer, stepEvent] using ih st
      | badJson m => simpa [runServer, stepEvent] using ih st
      | parsed v =>
        cases hE : executeCommand interp st.nextCall st.sys st.ns v with
        | ok r =>
          have hcap := executeCommand_reports_own_buffers interp st.nextCall st.sys st.ns v r hE
          have h := ih { st with ns := r.ns', sys := r.sysAfter, nextCall := st.nextCall + 1 }
          simp [runServer, stepEvent, hE, ownCapture, List.all_cons, hcap.1, hcap.2] at h ⊢
          exact h
        | error pr =>
          obtain ⟨exc, sys'⟩ := pr
          have h := ih { st with sys := sys', nextCall := st.nextCall + 1 }
          simpa [runServer, stepEvent, hE] using h

/-- C4.  Under the single-threaded event loop (events are fully received
frames delivered in arrival order), command executions are serialized:
at every instant at most one `_execute_command` call is in flight, the
executions happen in the order the frames were received — across any mix
of approved connections — with consecutive fresh capture buffers, and
every response carries only the output captured during its own command,
never another command's. -/
theorem serialized_execution (interp : PyInterp) (st : ServerState) (evs : List Event) :
    inFlightLe1 0 (runServer interp st evs).trace = true ∧
    enterConns (runServer interp st evs).trace = evs.filterMap parsedConn ∧
    enterIds (runServer interp st evs).trace =
      idsFrom st.nextCall (evs.filterMap parsedConn).length ∧
    ownCapture (runServer interp st evs).calls = true := by
  have h := runServer_trace_props interp evs st
  exact ⟨h.1, h.2.1, h.2.2, runServer_own_capture interp evs st⟩

end GlueBridge
